import Mathlib

/-!
Verification of the advancing-cursor library (`src/lib.rs`).

A Rust slice reference `&[T]` / `&mut [T]` is modelled as a `View`: a base
address together with the list of elements in the window.  The mutable
handle (`&mut self`) is modelled by explicit state passing: each operation
returns its result together with the handle's view after the call.  A
panic (`assert!` failure) is modelled as `Option.none`; the fallible tier
returns `Except`.  Mutability of the element storage plays no role in the
advance bookkeeping, so the `&[T]` and `&mut [T]` impls (which perform the
same address/length arithmetic) share one model.
-/

set_option autoImplicit false

namespace Advancer

/-- A non-owning view over contiguous elements: base address plus the
elements in the window.  Models `&[T]` / `&mut [T]` as (pointer, length,
contents); the address lets address-level facts (rebinding, disjointness)
be stated. -/
structure View (T : Type) where
  addr : Nat
  data : List T
deriving Repr, DecidableEq

/-- Length capability from `impl Length for [T]` (and the reference impls
that delegate to it): the element count of the view. -/
def View.len {T : Type} (v : View T) : Nat :=
  v.data.length

/-- Default method of trait `Length`: `is_empty` is `len() == 0`. -/
def View.is_empty {T : Type} (v : View T) : Bool :=
  v.len == 0

/-- The error type `AdvanceError`: its single variant `NotEnoughData`
carries the requested count and the available count. -/
inductive AdvanceError where
  | NotEnoughData (needed : Nat) (remaining : Nat)
deriving Repr, DecidableEq

/-- `advance_unchecked` from `impl Advance for &mut [T]` (lines 146-152)
and `impl Advance for &[T]` (lines 178-184): with base pointer `ptr` and
length `len`, the handle is rebound to `(ptr + amount, len - amount)` and
the view `(ptr, amount)` over the consumed head is returned.  The result
pair is (consumed view, handle state after the call).  The caller contract
is `amount <= len`. -/
def advance_unchecked {T : Type} (v : View T) (amount : Nat) : View T × View T :=
  (⟨v.addr, v.data.take amount⟩, ⟨v.addr + amount, v.data.drop amount⟩)

/-- Checked `Advance::advance` (lines 69-73): `assert!(amount <= self.len())`
then delegate to `advance_unchecked`.  A failed assertion is a panic,
modelled as `none`. -/
def advance {T : Type} (v : View T) (amount : Nat) : Option (View T × View T) :=
  if amount ≤ v.len then some (advance_unchecked v amount) else none

/-- Fallible `Advance::try_advance` (lines 77-87): if `self.len() < amount`
return `NotEnoughData { needed: amount, remaining: self.len() }` leaving
the handle untouched, otherwise delegate to `advance_unchecked`.  The pair
is (result, handle state after the call). -/
def try_advance {T : Type} (v : View T) (amount : Nat) :
    Except AdvanceError (View T) × View T :=
  if v.len < amount then
    (Except.error (AdvanceError.NotEnoughData amount v.len), v)
  else
    ((Except.ok (advance_unchecked v amount).1), (advance_unchecked v amount).2)

/-- A view typed as exactly `N` elements, modelling `&[T; N]` /
`&mut [T; N]`: the static size is carried in the type and the contents are
constrained to have that length. -/
structure ArrayView (T : Type) (N : Nat) where
  addr : Nat
  data : List T
  hsize : data.length = N

/-- Length capability from `impl Length for [T; N]` (lines 33-49): the
compile-time constant `N`, not a runtime measurement. -/
def ArrayView.len {T : Type} {N : Nat} (_ : ArrayView T N) : Nat :=
  N

/-- Default method of trait `Length` at fixed-size-array type. -/
def ArrayView.is_empty {T : Type} {N : Nat} (a : ArrayView T N) : Bool :=
  a.len == 0

/-- The pointer cast `.cast::<[T; N]>()` of the source (lines 164-167 and
196-199): a size-preserving reinterpretation of an `N`-length view as a
view typed as exactly `N` elements; identity on address and contents. -/
def castFixed {T : Type} (N : Nat) (v : View T) (h : v.len = N) : ArrayView T N :=
  ⟨v.addr, v.data, h⟩

/-- `advance_array_unchecked` from `impl AdvanceArray for &mut [T]`
(lines 162-168) and `impl AdvanceArray for &[T]` (lines 194-200): delegate
to `advance_unchecked(N)` and reinterpret the consumed view as a fixed-size
array view.  The safety contract `N <= len` (which in the source makes the
pointer cast valid) appears as the hypothesis `h`. -/
def advance_array_unchecked {T : Type} (v : View T) (N : Nat) (h : N ≤ v.len) :
    ArrayView T N × View T :=
  (castFixed N (advance_unchecked v N).1
    (by
      unfold advance_unchecked View.len at *
      simp only [List.length_take]
      omega),
   (advance_unchecked v N).2)

/-- Checked `AdvanceArray::advance_array` (lines 109-113):
`assert!(N <= self.len())` then delegate; panic modelled as `none`. -/
def advance_array {T : Type} (v : View T) (N : Nat) :
    Option (ArrayView T N × View T) :=
  if h : N ≤ v.len then some (advance_array_unchecked v N h) else none

/-- Fallible `AdvanceArray::try_advance_array` (lines 117-129): if
`self.len() < N` return `NotEnoughData { needed: N, remaining: self.len() }`
leaving the handle untouched, otherwise delegate. -/
def try_advance_array {T : Type} (v : View T) (N : Nat) :
    Except AdvanceError (ArrayView T N) × View T :=
  if h : v.len < N then
    (Except.error (AdvanceError.NotEnoughData N v.len), v)
  else
    (Except.ok (advance_array_unchecked v N (Nat.le_of_not_lt h)).1,
     (advance_array_unchecked v N (Nat.le_of_not_lt h)).2)

/-- Modelled from the spec (§4.4): the variable-length unchecked advance of
`N` elements followed by the size-preserving reinterpretation of the
consumed `N`-length view as an exactly-`N`-sized array view.  Used as the
comparison point for the refinement claim about the fixed-length advance. -/
def advanceThenCast {T : Type} (v : View T) (N : Nat) (h : N ≤ v.len) :
    ArrayView T N × View T :=
  (castFixed N (advance_unchecked v N).1
    (by
      unfold advance_unchecked View.len at *
      simp only [List.length_take]
      omega),
   (advance_unchecked v N).2)

/-- Claim C1: for a view of length `L` and any `k ≤ L`, the advance splits
the view into a consumed head of length `k` with contents `S[0..k]` at the
original address and a rebound handle of length `L - k` with contents
`S[k..L]` at address `base + k`; the two are adjacent (hence disjoint) and
their concatenation reconstructs `S` exactly. -/
theorem advance_spec {T : Type} (v : View T) (k : Nat) (h : k ≤ v.len) :
    (advance_unchecked v k).1.data = v.data.take k ∧
    (advance_unchecked v k).1.len = k ∧
    (advance_unchecked v k).1.addr = v.addr ∧
    (advance_unchecked v k).2.data = v.data.drop k ∧
    (advance_unchecked v k).2.len = v.len - k ∧
    (advance_unchecked v k).2.addr = v.addr + k ∧
    (advance_unchecked v k).1.data ++ (advance_unchecked v k).2.data = v.data ∧
    (advance_unchecked v k).1.addr + (advance_unchecked v k).1.len
      = (advance_unchecked v k).2.addr ∧
    (advance_unchecked v k).2.addr + (advance_unchecked v k).2.len
      = v.addr + v.len := by
  unfold advance_unchecked View.len at *
  refine ⟨rfl, ?_, rfl, rfl, ?_, rfl, ?_, ?_, ?_⟩ <;>
    simp [List.length_take, List.length_drop] <;> omega

/-- Witness for C1 at the view `[1, 2, 3]`, advancing by 2. -/
theorem advance_spec_witness :
    (advance_unchecked (⟨0, [1, 2, 3]⟩ : View Nat) 2).1.data = [1, 2] ∧
    (advance_unchecked (⟨0, [1, 2, 3]⟩ : View Nat) 2).2.data = [3] :=
  ⟨(advance_spec (⟨0, [1, 2, 3]⟩ : View Nat) 2 (by decide)).1,
   (advance_spec (⟨0, [1, 2, 3]⟩ : View Nat) 2 (by decide)).2.2.2.1⟩

/-- Claim C2: when the requested amount exceeds the current length,
`try_advance` returns `NotEnoughData` with `needed` the requested amount
and `remaining` the current length, and the handle is left completely
unmodified (same address, length and contents); when the amount fits it
returns the consumed view as success; the error is returned exactly when
the amount exceeds the length. -/
theorem try_advance_spec {T : Type} (v : View T) (k : Nat) :
    (v.len < k →
      try_advance v k
        = (Except.error (AdvanceError.NotEnoughData k v.len), v)) ∧
    (k ≤ v.len →
      try_advance v k
        = (Except.ok (advance_unchecked v k).1, (advance_unchecked v k).2)) ∧
    ((try_advance v k).1.isOk = true ↔ k ≤ v.len) := by
  by_cases hlt : v.len < k
  · refine ⟨fun _ => ?_, fun hle => absurd hlt (Nat.not_lt.mpr hle), ?_⟩
    · simp [try_advance, hlt]
    · simp [try_advance, hlt, Except.isOk, Except.toBool]
  · refine ⟨fun hc => absurd hc hlt, fun _ => ?_, ?_⟩
    · simp [try_advance, hlt]
    · simp [try_advance, hlt, Except.isOk, Except.toBool]
      omega

/-- Witness for C2 at the view `[5, 6, 7]`, requesting 9 elements. -/
theorem try_advance_spec_witness :
    try_advance (⟨4, [5, 6, 7]⟩ : View Nat) 9
      = (Except.error (AdvanceError.NotEnoughData 9 3), (⟨4, [5, 6, 7]⟩ : View Nat)) :=
  (try_advance_spec (⟨4, [5, 6, 7]⟩ : View Nat) 9).1 (by decide)

/-- Claim C4: the checked tiers panic (abnormal termination, modelled as
`none`) exactly when the requested amount exceeds the current length; when
the precondition holds they behave as the unchecked forms. -/
theorem advance_checked_spec {T : Type} (v : View T) (k : Nat) :
    (advance v k = none ↔ v.len < k) ∧
    (k ≤ v.len → advance v k = some (advance_unchecked v k)) ∧
    (advance_array v k = none ↔ v.len < k) ∧
    (∀ h : k ≤ v.len, advance_array v k = some (advance_array_unchecked v k h)) := by
  refine ⟨?_, fun hle => ?_, ?_, fun h => ?_⟩
  · simp [advance]
  · simp [advance, hle]
  · simp [advance_array]
  · simp [advance_array, h]

/-- Witness for C4 at the view `[1, 2]`: advancing by 5 panics, advancing
by 2 succeeds. -/
theorem advance_checked_spec_witness :
    (advance (⟨0, [1, 2]⟩ : View Nat) 5 = none ↔ (⟨0, [1, 2]⟩ : View Nat).len < 5) ∧
    advance (⟨0, [1, 2]⟩ : View Nat) 2
      = some (advance_unchecked (⟨0, [1, 2]⟩ : View Nat) 2) :=
  ⟨(advance_checked_spec (⟨0, [1, 2]⟩ : View Nat) 5).1,
   (advance_checked_spec (⟨0, [1, 2]⟩ : View Nat) 2).2.1 (by decide)⟩

/-- Claim C7: advancing by 0 always succeeds in all three tiers, returns an
empty consumed view, and leaves the handle's view unchanged in both address
and length (indeed unchanged entirely). -/
theorem advance_zero_spec {T : Type} (v : View T) :
    advance_unchecked v 0 = (⟨v.addr, []⟩, v) ∧
    advance v 0 = some (⟨v.addr, []⟩, v) ∧
    try_advance v 0 = (Except.ok (⟨v.addr, []⟩ : View T), v) := by
  have h0 : advance_unchecked v 0 = ((⟨v.addr, []⟩ : View T), v) := by
    unfold advance_unchecked
    simp
  refine ⟨h0, ?_, ?_⟩
  · simp [advance, h0]
  · simp [try_advance, h0]

/-- Claim C3: the fixed-length advance equals the variable-length advance
of `N` elements followed by the size-preserving reinterpretation: when
`N ≤ L` the consumed view has static size `N` (its contents have length
exactly `N` and equal the first `N` elements) and the handle is left over
the remaining `L - N` elements, exactly as the variable-length advance
leaves it; when `L < N` the fallible form returns `NotEnoughData` with
`needed = N` and `remaining = L` and leaves the handle unmodified. -/
theorem advance_array_refines {T : Type} (v : View T) (N : Nat) :
    (∀ h : N ≤ v.len,
      advance_array_unchecked v N h = advanceThenCast v N h ∧
      (advance_array_unchecked v N h).1.data = v.data.take N ∧
      (advance_array_unchecked v N h).1.data.length = N ∧
      (advance_array_unchecked v N h).1.addr = v.addr ∧
      (advance_array_unchecked v N h).2 = (advance_unchecked v N).2 ∧
      (advance_array_unchecked v N h).2.data = v.data.drop N ∧
      (advance_array_unchecked v N h).2.len = v.len - N) ∧
    (v.len < N →
      try_advance_array v N
        = (Except.error (AdvanceError.NotEnoughData N v.len), v)) ∧
    (∀ h : N ≤ v.len,
      try_advance_array v N
        = (Except.ok (advance_array_unchecked v N h).1,
           (advance_array_unchecked v N h).2)) := by
  refine ⟨fun h => ⟨rfl, rfl, ?_, rfl, rfl, rfl, ?_⟩, fun hlt => ?_, fun h => ?_⟩
  · exact (advance_array_unchecked v N h).1.hsize
  · unfold advance_array_unchecked castFixed advance_unchecked View.len at *
    simp [List.length_drop]
  · simp [try_advance_array, hlt]
  · simp [try_advance_array, Nat.not_lt.mpr h]

/-- Witness for C3 at the view `[1, 2, 3]` with `N = 2` (success tier) and
`N = 9` (error tier). -/
theorem advance_array_refines_witness :
    (advance_array_unchecked (⟨0, [1, 2, 3]⟩ : View Nat) 2 (by decide)).1.data = [1, 2] ∧
    try_advance_array (⟨0, [1, 2, 3]⟩ : View Nat) 9
      = (Except.error (AdvanceError.NotEnoughData 9 3), (⟨0, [1, 2, 3]⟩ : View Nat)) :=
  ⟨((advance_array_refines (⟨0, [1, 2, 3]⟩ : View Nat) 2).1 (by decide)).2.1,
   (advance_array_refines (⟨0, [1, 2, 3]⟩ : View Nat) 9).2.1 (by decide)⟩

/-- Claim C10: the fixed-length advance with `N = 0` always succeeds in all
three tiers, even on an empty handle: the fallible form never errors since
`0 ≤ len` always holds, the consumed view is typed as a 0-element array
(and is empty), and the handle is unchanged in address, length and
contents. -/
theorem advance_array_zero_spec {T : Type} (v : View T) :
    (advance_array_unchecked v 0 (Nat.zero_le _)).1.data = [] ∧
    (advance_array_unchecked v 0 (Nat.zero_le _)).1.addr = v.addr ∧
    (advance_array_unchecked v 0 (Nat.zero_le _)).2 = v ∧
    advance_array v 0 = some (advance_array_unchecked v 0 (Nat.zero_le _)) ∧
    (try_advance_array v 0).2 = v ∧
    (∃ a : ArrayView T 0,
      (try_advance_array v 0).1 = Except.ok a ∧ a.data = [] ∧ a.addr = v.addr) := by
  have h2 : (advance_array_unchecked v 0 (Nat.zero_le _)).2 = v := by
    unfold advance_array_unchecked advance_unchecked
    simp
  refine ⟨rfl, rfl, h2, ?_, ?_, ?_⟩
  · simp [advance_array]
  · simpa [try_advance_array] using h2
  · exact ⟨(advance_array_unchecked v 0 (Nat.zero_le _)).1, by simp [try_advance_array], rfl, rfl⟩

/-- Claim C6: `is_empty` is true exactly when `len` is 0 (for views and for
fixed-size array views); a fixed-size array view of declared size `N`
reports length the compile-time constant `N`, consistent with its runtime
contents; `len` is a pure function of the view, so repeated calls without
an intervening advance return the same value. -/
theorem length_spec {T : Type} (v : View T) (N : Nat) (a : ArrayView T N) :
    (v.is_empty = true ↔ v.len = 0) ∧
    a.len = N ∧
    (a.is_empty = true ↔ N = 0) ∧
    a.len = a.data.length := by
  refine ⟨?_, rfl, ?_, ?_⟩
  · simp [View.is_empty]
  · simp [ArrayView.is_empty, ArrayView.len]
  · simp [ArrayView.len, a.hsize]

/-- Claim C8: the error type has exactly the one kind `NotEnoughData` with
fields `needed` and `remaining`; every recoverable failure of the fallible
operations is this error, produced exactly when the requested amount
exceeds the current length, with `needed` the request and `remaining` the
length. -/
theorem error_model_spec {T : Type} (v : View T) (k : Nat) (e : AdvanceError) :
    (∃ n r, e = AdvanceError.NotEnoughData n r) ∧
    ((try_advance v k).1 = Except.error e →
      e = AdvanceError.NotEnoughData k v.len ∧ v.len < k) ∧
    ((try_advance_array v k).1 = Except.error e →
      e = AdvanceError.NotEnoughData k v.len ∧ v.len < k) := by
  refine ⟨?_, fun herr => ?_, fun herr => ?_⟩
  · cases e with
    | NotEnoughData n r => exact ⟨n, r, rfl⟩
  · by_cases hlt : v.len < k
    · simp [try_advance, hlt] at herr
      simp [herr, hlt]
    · simp [try_advance, hlt] at herr
  · by_cases hlt : v.len < k
    · simp [try_advance_array, hlt] at herr
      simp [herr, hlt]
    · simp [try_advance_array, hlt] at herr

/-- Witness for C8 at the view `[1]`, requesting 5 elements. -/
theorem error_model_spec_witness :
    AdvanceError.NotEnoughData 5 1
      = AdvanceError.NotEnoughData 5 (⟨0, [1]⟩ : View Nat).len ∧
    (⟨0, [1]⟩ : View Nat).len < 5 :=
  (error_model_spec (⟨0, [1]⟩ : View Nat) 5 (AdvanceError.NotEnoughData 5 1)).2.1 rfl

/-- Claim C5: end-to-end scenario on the buffer `[1,2,3,4,5]`:
`try_advance 2` succeeds with consumed `[1,2]` and the handle becomes
`[3,4,5]`; `try_advance 10` returns `NotEnoughData` with `needed = 10` and
`remaining = 3`, leaving the handle at `[3,4,5]`; the fixed-length advance
with `N = 3` returns `[3,4,5]` typed as a 3-element view and the handle
becomes empty. -/
theorem walkthrough_spec :
    try_advance (⟨0, [1, 2, 3, 4, 5]⟩ : View Nat) 2
      = (Except.ok (⟨0, [1, 2]⟩ : View Nat), (⟨2, [3, 4, 5]⟩ : View Nat)) ∧
    try_advance (⟨2, [3, 4, 5]⟩ : View Nat) 10
      = (Except.error (AdvanceError.NotEnoughData 10 3), (⟨2, [3, 4, 5]⟩ : View Nat)) ∧
    (advance_array (⟨2, [3, 4, 5]⟩ : View Nat) 3).map
        (fun p => (p.1.addr, p.1.data, p.2))
      = some (2, [3, 4, 5], (⟨5, []⟩ : View Nat)) ∧
    (advance_array (⟨2, [3, 4, 5]⟩ : View Nat) 3).map (fun p => p.2.is_empty)
      = some true ∧
    (try_advance_array (⟨2, [3, 4, 5]⟩ : View Nat) 3).1.map (fun a => a.data)
      = Except.ok [3, 4, 5] ∧
    (try_advance_array (⟨2, [3, 4, 5]⟩ : View Nat) 3).2 = (⟨5, []⟩ : View Nat) :=
  ⟨rfl, rfl, rfl, rfl, rfl, rfl⟩

/-- Normal form of the checked advance observed through element data. -/
theorem advance_data_norm {T : Type} (v : View T) (k : Nat) :
    (advance v k).map (fun p => (p.1.data, p.2.data))
      = if k ≤ v.len then some (v.data.take k, v.data.drop k) else none := by
  unfold advance
  by_cases hc : k ≤ v.len <;> simp [hc, advance_unchecked]

/-- Normal form of the fallible advance observed through element data. -/
theorem try_advance_data_norm {T : Type} (v : View T) (k : Nat) :
    ((try_advance v k).1.map View.data, (try_advance v k).2.data)
      = (if v.len < k then Except.error (AdvanceError.NotEnoughData k v.len)
         else Except.ok (v.data.take k),
         if v.len < k then v.data else v.data.drop k) := by
  unfold try_advance
  by_cases hc : v.len < k <;> simp [hc, advance_unchecked, Except.map]

/-- Normal form of the checked fixed-length advance observed through
element data. -/
theorem advance_array_data_norm {T : Type} (v : View T) (N : Nat) :
    (advance_array v N).map (fun p => (p.1.data, p.2.data))
      = if N ≤ v.len then some (v.data.take N, v.data.drop N) else none := by
  unfold advance_array
  by_cases hc : N ≤ v.len <;>
    simp [hc, advance_array_unchecked, castFixed, advance_unchecked]

/-- Normal form of the fallible fixed-length advance observed through
element data. -/
theorem try_advance_array_data_norm {T : Type} (v : View T) (N : Nat) :
    ((try_advance_array v N).1.map (fun a => a.data), (try_advance_array v N).2.data)
      = (if v.len < N then Except.error (AdvanceError.NotEnoughData N v.len)
         else Except.ok (v.data.take N),
         if v.len < N then v.data else v.data.drop N) := by
  unfold try_advance_array
  by_cases hc : v.len < N <;>
    simp [hc, advance_array_unchecked, castFixed, advance_unchecked, Except.map]

/-- Claim C9: all advance operations are deterministic functions of the
handle's contents and the amount: on two handles with equal contents (the
addresses may differ) every tier produces equal consumed contents or equal
error fields and leaves the two handles with equal contents. -/
theorem deterministic_spec {T : Type} (v1 v2 : View T) (k : Nat)
    (h : v1.data = v2.data) :
    (advance_unchecked v1 k).1.data = (advance_unchecked v2 k).1.data ∧
    (advance_unchecked v1 k).2.data = (advance_unchecked v2 k).2.data ∧
    (advance v1 k).map (fun p => (p.1.data, p.2.data))
      = (advance v2 k).map (fun p => (p.1.data, p.2.data)) ∧
    ((try_advance v1 k).1.map View.data, (try_advance v1 k).2.data)
      = ((try_advance v2 k).1.map View.data, (try_advance v2 k).2.data) ∧
    (advance_array v1 k).map (fun p => (p.1.data, p.2.data))
      = (advance_array v2 k).map (fun p => (p.1.data, p.2.data)) ∧
    ((try_advance_array v1 k).1.map (fun a => a.data), (try_advance_array v1 k).2.data)
      = ((try_advance_array v2 k).1.map (fun a => a.data),
         (try_advance_array v2 k).2.data) := by
  cases v1 with
  | mk a1 d1 =>
    cases v2 with
    | mk a2 d2 =>
      have hd : d1 = d2 := h
      subst hd
      refine ⟨rfl, rfl, ?_, ?_, ?_, ?_⟩
      · rw [advance_data_norm, advance_data_norm]
        rfl
      · rw [try_advance_data_norm, try_advance_data_norm]
        rfl
      · rw [advance_array_data_norm, advance_array_data_norm]
        rfl
      · rw [try_advance_array_data_norm, try_advance_array_data_norm]
        rfl

/-- Witness for C9 on two handles over `[1, 2]` at different addresses. -/
theorem deterministic_spec_witness :
    (advance_unchecked (⟨0, [1, 2]⟩ : View Nat) 1).1.data
      = (advance_unchecked (⟨7, [1, 2]⟩ : View Nat) 1).1.data :=
  (deterministic_spec (⟨0, [1, 2]⟩ : View Nat) (⟨7, [1, 2]⟩ : View Nat) 1 rfl).1

end Advancer
